import Mathlib

/-!
Verification of the response-validation pipeline of the hotel-booking API
validator (package `utils`, file with `checkRequired`, `validateFormat`,
`compareFields`, `valuePresent`, `ValidateBookingAvailabilityResponse` and
`ValidateBookingSubmitResponse`, plus the `v1.proto` data model).

Modelling conventions:
- protobuf message pointers become `Option` of the message structure; the
  generated Go getters (which return the zero value on a nil receiver) become
  the `get...` functions below;
- protobuf `float`/`double` fields are modelled as `Int`: the validator only
  ever zero-tests or structurally compares them, and no claim exercises
  floating-point arithmetic;
- enum fields are modelled as `Int` (proto3 enums are open int32 values);
- the `interface\x7b\x7d` values fed to the checkers become the `FieldValue`
  sum below; `reflect.ValueOf(v).IsZero()` becomes `FieldValue.isZero`
  (a nil pointer is zero, a non-nil pointer is not), and `cmp.Diff` with
  `cmp.Comparer(proto.Equal)` becomes decidable structural equality
  (nil and non-nil-but-empty messages are unequal, as in `proto.Equal`);
- `regexp.Match(pattern, value)` performs an unanchored search; the two
  patterns used are constants (`DateFormat`, `ISO3166`), so the format
  checker is modelled with a `Pattern` tag and `patternMatch` implements the
  search semantics of exactly those two regular expressions;
- logging side effects are dropped; error values keep their exact strings.
-/

structure DisplayString where
  text : String
  language : String
deriving DecidableEq

structure Occupancy where
  adults : Int
  children : List Int
deriving DecidableEq

structure Address where
  address1 : String
  address2 : String
  address3 : String
  city : String
  province : String
  postal_code : String
  country : String
deriving DecidableEq

structure Geolocation where
  latitude : Int
  longitude : Int
deriving DecidableEq

structure HotelPolicies where
  check_in_time : String
  check_out_time : String
  max_child_age : Int
  unstructured_policies : List DisplayString
deriving DecidableEq

structure Photo where
  url : String
  description : Option DisplayString
deriving DecidableEq

structure HotelDetails where
  name : String
  address : Option Address
  geolocation : Option Geolocation
  phone_number : String
  policies : Option HotelPolicies
  photos : List Photo
  email : String
  homepage_url : String
deriving DecidableEq

structure Price where
  amount : Int
  currency : String
deriving DecidableEq

structure BasicAmenities where
  free_breakfast : Bool
  free_wifi : Bool
  free_parking : Bool
deriving DecidableEq

structure CancellationPolicy where
  summary : Int
  cancellation_deadline : String
  unstructured_policy : Option DisplayString
deriving DecidableEq

structure RateRestriction where
  requires_loyalty_membership : Bool
deriving DecidableEq

structure RatePlan where
  code : String
  name : Option DisplayString
  description : Option DisplayString
  basic_amenities : Option BasicAmenities
  guarantee_type : Int
  cancellation_policy : Option CancellationPolicy
  unstructured_policies : List DisplayString
  rate_restrictions : List RateRestriction
deriving DecidableEq

structure Capacity where
  adults : Int
  children : Int
deriving DecidableEq

structure BedTypes where
  total_beds : Int
  king_beds : Int
  queen_beds : Int
  double_beds : Int
  single_or_twin_beds : Int
  murphy_beds : Int
  sofa_beds : Int
  bunk_beds : Int
  other_beds : Int
deriving DecidableEq

structure RoomType where
  code : String
  name : Option DisplayString
  description : Option DisplayString
  basic_amenities : Option BasicAmenities
  photos : List Photo
  capacity : Option Capacity
  bed_types : Option BedTypes
  unstructured_policies : List DisplayString
  amenities : List Int
  room_area_sq_meters : Int
  room_area_sq_feet : Int
deriving DecidableEq

structure LineItem where
  price : Option Price
  type : Int
  paid_at_checkout : Bool
  description : Option DisplayString
deriving DecidableEq

structure CancellationRule where
  deadline : String
  penalty : Option Price
deriving DecidableEq

structure RoomRate where
  code : String
  room_type_code : String
  rate_plan_code : String
  maximum_allowed_occupancy : Option Capacity
  total_price_at_booking : Option Price
  total_price_at_checkout : Option Price
  line_items : List LineItem
  cancellation_rules : List CancellationRule
  unstructured_policy : Option DisplayString
  partner_data : List String
  room_count : Int
deriving DecidableEq

structure Customer where
  first_name : String
  last_name : String
  phone_number : String
  email : String
  country : String
  join_loyalty_program : Bool
  loyalty_member_id : String
deriving DecidableEq

structure Traveler where
  first_name : String
  last_name : String
  occupancy : Option Occupancy
deriving DecidableEq

structure Tracking where
  campaign_id : String
  pos_url : String
deriving DecidableEq

structure CardOption where
  card_type : Int
  cvc_required : Bool
deriving DecidableEq

structure PartnerPolicies where
  card_options : List CardOption
  unstructured_policies : List DisplayString
deriving DecidableEq

structure AvailabilityError where
  type : Int
  message : String
deriving DecidableEq

structure SubmitError where
  type : Int
  message : String
deriving DecidableEq

structure BookingAvailabilityRequest where
  api_version : Int
  transaction_id : String
  tracking : Option Tracking
  hotel_id : String
  start_date : String
  end_date : String
  party : Option Occupancy
  language : String
  currency : String
  user_country : String
  device_type : Int
deriving DecidableEq

structure BookingAvailabilityResponse where
  api_version : Int
  transaction_id : String
  hotel_id : String
  start_date : String
  end_date : String
  party : Option Occupancy
  room_types : List RoomType
  rate_plans : List RatePlan
  room_rates : List RoomRate
  hotel_details : Option HotelDetails
  policies : Option PartnerPolicies
  error : Option AvailabilityError
deriving DecidableEq

structure PaymentCardParameters where
  card_type : Int
  card_number : String
  cardholder_name : String
  expiration_month : String
  expiration_year : String
  cvc : String
  cavv : String
  eci : String
deriving DecidableEq

structure Payment where
  type : Int
  payment_card_parameters : Option PaymentCardParameters
  payment_token : String
  billing_address : Option Address
deriving DecidableEq

structure BookingSubmitRequest where
  api_version : Int
  transaction_id : String
  tracking : Option Tracking
  hotel_id : String
  start_date : String
  end_date : String
  ip_address : String
  language : String
  customer : Option Customer
  traveler : Option Traveler
  room_rate : Option RoomRate
  payment : Option Payment
deriving DecidableEq

structure Locator where
  id : String
  pin : String
deriving DecidableEq

structure Reservation where
  locator : Option Locator
  hotel_locators : List Locator
  hotel_id : String
  start_date : String
  end_date : String
  customer : Option Customer
  traveler : Option Traveler
  room_rate : Option RoomRate
deriving DecidableEq

structure BookingSubmitResponse where
  api_version : Int
  transaction_id : String
  status : Int
  reservation : Option Reservation
  error : Option SubmitError
deriving DecidableEq

/-- Generated Go getter `GetAdults` on a possibly-nil `*Occupancy`. -/
def Occupancy.getAdults : Option Occupancy → Int
  | none => 0
  | some o => o.adults

/-- Generated Go getter `GetName` on a possibly-nil `*HotelDetails`. -/
def HotelDetails.getName : Option HotelDetails → String
  | none => ""
  | some h => h.name

/-- Generated Go getter `GetAddress` on a possibly-nil `*HotelDetails`. -/
def HotelDetails.getAddress : Option HotelDetails → Option Address
  | none => none
  | some h => h.address

/-- Generated Go getter `GetAddress1` on a possibly-nil `*Address`. -/
def Address.getAddress1 : Option Address → String
  | none => ""
  | some a => a.address1

/-- Generated Go getter `GetCity` on a possibly-nil `*Address`. -/
def Address.getCity : Option Address → String
  | none => ""
  | some a => a.city

/-- Generated Go getter `GetProvince` on a possibly-nil `*Address`. -/
def Address.getProvince : Option Address → String
  | none => ""
  | some a => a.province

/-- Generated Go getter `GetCountry` on a possibly-nil `*Address`. -/
def Address.getCountry : Option Address → String
  | none => ""
  | some a => a.country

/-- Generated Go getter `GetAmount` on a possibly-nil `*Price`. -/
def Price.getAmount : Option Price → Int
  | none => 0
  | some p => p.amount

/-- Generated Go getter `GetLocator` on a possibly-nil `*Reservation`. -/
def Reservation.getLocator : Option Reservation → Option Locator
  | none => none
  | some r => r.locator

/-- Generated Go getter `GetId` on a possibly-nil `*Locator`. -/
def Locator.getId : Option Locator → String
  | none => ""
  | some l => l.id

/-- Generated Go getter `GetHotelId` on a possibly-nil `*Reservation`. -/
def Reservation.getHotelId : Option Reservation → String
  | none => ""
  | some r => r.hotel_id

/-- Generated Go getter `GetStartDate` on a possibly-nil `*Reservation`. -/
def Reservation.getStartDate : Option Reservation → String
  | none => ""
  | some r => r.start_date

/-- Generated Go getter `GetEndDate` on a possibly-nil `*Reservation`. -/
def Reservation.getEndDate : Option Reservation → String
  | none => ""
  | some r => r.end_date

/-- Generated Go getter `GetCustomer` on a possibly-nil `*Reservation`. -/
def Reservation.getCustomer : Option Reservation → Option Customer
  | none => none
  | some r => r.customer

/-- Generated Go getter `GetTraveler` on a possibly-nil `*Reservation`. -/
def Reservation.getTraveler : Option Reservation → Option Traveler
  | none => none
  | some r => r.traveler

/-- Generated Go getter `GetRoomRate` on a possibly-nil `*Reservation`. -/
def Reservation.getRoomRate : Option Reservation → Option RoomRate
  | none => none
  | some r => r.room_rate

/-- The `interface\x7b\x7d` values fed to the field checkers: the categories of
values that actually occur in the validators' check tables. -/
inductive FieldValue where
  | str (s : String)
  | int (n : Int)
  | occupancy (o : Option Occupancy)
  | customer (c : Option Customer)
  | traveler (t : Option Traveler)
  | roomRate (r : Option RoomRate)
  | cancellationPolicy (p : Option CancellationPolicy)
deriving DecidableEq

/-- Model of `reflect.ValueOf(v).IsZero()`: empty string, zero number, nil
pointer are zero; a non-nil pointer is never zero (whatever it points at). -/
def FieldValue.isZero : FieldValue → Bool
  | .str s => s == ""
  | .int n => n == 0
  | .occupancy o => o.isNone
  | .customer c => c.isNone
  | .traveler t => t.isNone
  | .roomRate r => r.isNone
  | .cancellationPolicy p => p.isNone

/-- Model of the generated `String()` method on a possibly-nil
`*DisplayString`: the proto compact text format, which is empty exactly when
the receiver is nil or every field holds its default value. -/
def DisplayString.textRepr : Option DisplayString → String
  | none => ""
  | some d =>
    (if d.text == "" then "" else "text:\x22" ++ d.text ++ "\x22 ") ++
    (if d.language == "" then "" else "language:\x22" ++ d.language ++ "\x22 ")

/-- Model of the generated `String()` method of the `Status` enum of
`BookingSubmitResponse` (`proto.EnumName` with `strconv.Itoa` fallback). -/
def statusString (s : Int) : String :=
  if s = 0 then "SUCCESS" else if s = 1 then "FAILURE" else toString s

structure validationTest where
  field : String
  want : FieldValue
  got : FieldValue

structure requiredTest where
  field : String
  got : FieldValue

/-- The two constant regular expressions handed to `validateFormat`
(`DateFormat` and `ISO3166`). -/
inductive Pattern where
  | date
  | iso3166

structure formatTest where
  field : String
  value : String
  pattern : Pattern

/-- Whole-list match of `DateFormat`, the fully anchored pattern
`[12]dddd-(0[1-9]or1[0-2])-(0[1-9]or[12]dor3[01])` bracketed by both a start
and an end anchor, so it matches exactly the ten-character date shapes. -/
def dateMatchList : List Char → Bool
  | [y1, y2, y3, y4, h1, m1, m2, h2, d1, d2] =>
    (y1 == '1' || y1 == '2') && y2.isDigit && y3.isDigit && y4.isDigit &&
    h1 == '-' &&
    ((m1 == '0' && '1' ≤ m2 && m2 ≤ '9') || (m1 == '1' && '0' ≤ m2 && m2 ≤ '2')) &&
    h2 == '-' &&
    ((d1 == '0' && '1' ≤ d2 && d2 ≤ '9') || ((d1 == '1' || d1 == '2') && d2.isDigit) ||
      (d1 == '3' && (d2 == '0' || d2 == '1')))
  | _ => false

/-- One of the middle alternatives of the `ISO3166` pattern: these carry no
anchor at all, so `regexp.Match` accepts them anywhere in the value. The
character classes are transcribed from the source, including the literal
newline and tab characters that the multi-line Go raw string puts inside the
classes of the `F`, `M` and `U` alternatives. -/
def isoMiddlePair (c1 c2 : Char) : Bool :=
  (c1 == 'B' && !(['C', 'K', 'P', 'U', 'X'].contains c2)) ||
  (c1 == 'C' && !(['B', 'E', 'J', 'P', 'Q', 'S', 'T'].contains c2)) ||
  (c1 == 'D' && ['E', 'J', 'K', 'M', 'O', 'Z'].contains c2) ||
  (c1 == 'E' && ['C', 'E', 'G', 'H', 'R', 'S', 'T'].contains c2) ||
  (c1 == 'F' && ['I', 'J', 'K', 'M', '\n', '\t', 'O', 'R'].contains c2) ||
  (c1 == 'G' && !(['C', 'J', 'K', 'O', 'V', 'X', 'Z'].contains c2)) ||
  (c1 == 'H' && ['K', 'M', 'N', 'R', 'T', 'U'].contains c2) ||
  (c1 == 'I' && (['D', 'E'].contains c2 || (decide ('L' ≤ c2) && decide (c2 ≤ 'O')) ||
    (decide ('Q' ≤ c2) && decide (c2 ≤ 'T')))) ||
  (c1 == 'J' && ['E', 'M', 'O', 'P'].contains c2) ||
  (c1 == 'K' && ['E', 'G', 'H', 'I', 'M', 'N', 'P', 'R', 'W', 'Y', 'Z'].contains c2) ||
  (c1 == 'L' && (['A', 'B', 'C', 'I', 'K'].contains c2 ||
    (decide ('R' ≤ c2) && decide (c2 ≤ 'V')) || c2 == 'Y')) ||
  (c1 == 'M' && !(['B', '\n', '\t', 'I', 'J'].contains c2)) ||
  (c1 == 'N' && ['A', 'C', 'E', 'F', 'G', 'I', 'L', 'O', 'P', 'R', 'U', 'Z'].contains c2) ||
  (c1 == 'O' && c2 == 'M') ||
  (c1 == 'P' && (c2 == 'A' || (decide ('E' ≤ c2) && decide (c2 ≤ 'H')) ||
    ['K', 'N', 'R', 'S', 'T', 'W', 'Y'].contains c2)) ||
  (c1 == 'Q' && c2 == 'A') ||
  (c1 == 'R' && ['E', 'O', 'S', 'U', 'W'].contains c2) ||
  (c1 == 'S' && !(['F', 'P', 'Q', 'U', 'W'].contains c2)) ||
  (c1 == 'T' && !(['A', 'B', 'E', 'I', 'P', 'Q', 'S', 'U', 'X', 'Y'].contains c2)) ||
  (c1 == 'U' && ['A', '\n', '\t', 'G', 'M', 'S', 'Y', 'Z'].contains c2) ||
  (c1 == 'V' && ['A', 'C', 'E', 'G', 'I', 'N', 'U'].contains c2) ||
  (c1 == 'W' && (c2 == 'F' || c2 == 'S')) ||
  (c1 == 'Y' && (c2 == 'E' || c2 == 'T'))

/-- The first alternative of `ISO3166`, the only one anchored at the start of
the text. -/
def isoFirstAlt : List Char → Bool
  | 'A' :: c2 :: _ => !(['A', 'B', 'C', 'H', 'J', 'K', 'N', 'P', 'V', 'Y'].contains c2)
  | _ => false

/-- The last alternative of `ISO3166`, the only one anchored at the end of
the text. -/
def isoLastAlt (cs : List Char) : Bool :=
  match cs.reverse with
  | c2 :: 'Z' :: _ => ['A', 'M', 'W'].contains c2
  | _ => false

/-- Unanchored search for any middle alternative of `ISO3166` over adjacent
character pairs. -/
def isoHasMiddle : List Char → Bool
  | c1 :: c2 :: rest => isoMiddlePair c1 c2 || isoHasMiddle (c2 :: rest)
  | _ => false

/-- Search semantics of `regexp.Match(ISO3166, value)`: the alternation
matches somewhere in the value. -/
def isoMatchList (cs : List Char) : Bool :=
  isoFirstAlt cs || isoHasMiddle cs || isoLastAlt cs

/-- Model of `regexp.Match(pattern, value)` for the two constant patterns the
validator uses. The date pattern carries its own anchors at both ends, so the
search reduces to a whole-string match; the country pattern does not. -/
def patternMatch : Pattern → String → Bool
  | .date, s => dateMatchList s.data
  | .iso3166, s => isoMatchList s.data

/-- checkRequired will ensure each requiredTest value is not equal to the
unset value (source: `reflect.ValueOf(rr.got).IsZero()`), collecting every
failing field before reporting. -/
def checkRequired (r : List requiredTest) : Except String Unit :=
  let errorFields := (r.filter (fun rr => rr.got.isZero)).map (fun rr => rr.field)
  if errorFields.isEmpty then .ok ()
  else .error ("required field(s) missing: " ++ String.intercalate ", " errorFields)

/-- compareFields will ensure each validationTest got and want proto values
are equal, collecting every failing field before reporting. -/
def compareFields (v : List validationTest) : Except String Unit :=
  let errorFields := (v.filter (fun vv => !(vv.got == vv.want))).map (fun vv => vv.field)
  if errorFields.isEmpty then .ok ()
  else .error ("echo field(s) did not match request: " ++ String.intercalate "," errorFields)

/-- validateFormat will ensure each formatTest value matches the given
pattern, collecting every failing field before reporting. -/
def validateFormat (f : List formatTest) : Except String Unit :=
  let errorFields := (f.filter (fun ff => !(patternMatch ff.pattern ff.value))).map (fun ff => ff.field)
  if errorFields.isEmpty then .ok ()
  else .error ("error validating format for field(s): " ++ String.intercalate ", " errorFields)

/-- valuePresent will check if value v is present in slice s. -/
def valuePresent (v : String) (s : List String) : Bool :=
  match s with
  | [] => false
  | x :: rest => if x == v then true else valuePresent v rest

/-- The top-level required-field table of the Availability validator. -/
def availabilityRequiredTests (resp : BookingAvailabilityResponse) : List requiredTest :=
  [{ field := "api_version", got := .int resp.api_version },
   { field := "transaction_id", got := .str resp.transaction_id },
   { field := "hotel_id", got := .str resp.hotel_id },
   { field := "party > adults", got := .int (Occupancy.getAdults resp.party) },
   { field := "hotel_details > name", got := .str (HotelDetails.getName resp.hotel_details) },
   { field := "hotel_details > address > address1",
     got := .str (Address.getAddress1 (HotelDetails.getAddress resp.hotel_details)) },
   { field := "hotel_details > address > city",
     got := .str (Address.getCity (HotelDetails.getAddress resp.hotel_details)) },
   { field := "hotel_details > address > province",
     got := .str (Address.getProvince (HotelDetails.getAddress resp.hotel_details)) }]

/-- The format table of the Availability validator. -/
def availabilityFormatTests (resp : BookingAvailabilityResponse) : List formatTest :=
  [{ field := "start_date", value := resp.start_date, pattern := .date },
   { field := "end_date", value := resp.end_date, pattern := .date },
   { field := "hotel_details > address > country",
     value := Address.getCountry (HotelDetails.getAddress resp.hotel_details),
     pattern := .iso3166 }]

/-- The echo table of the Availability validator. -/
def availabilityEchoTests (req : BookingAvailabilityRequest)
    (resp : BookingAvailabilityResponse) : List validationTest :=
  [{ field := "hotel_id", want := .str req.hotel_id, got := .str resp.hotel_id },
   { field := "start_date", want := .str req.start_date, got := .str resp.start_date },
   { field := "end_date", want := .str req.end_date, got := .str resp.end_date },
   { field := "party", want := .occupancy req.party, got := .occupancy resp.party }]

/-- Per-element required-field table for one room type (paths carry the
element index, `fmt.Sprintf` in the source). -/
def roomTypeTests (i : Nat) (r : RoomType) : List requiredTest :=
  [{ field := "room_types[" ++ toString i ++ "] > code", got := .str r.code },
   { field := "room_types[" ++ toString i ++ "] > name",
     got := .str (DisplayString.textRepr r.name) }]

/-- The `for i, r := range resp.GetRoomTypes()` loop: each element's required
check returns immediately on failure. -/
def roomTypesCheck : Nat → List RoomType → Except String Unit
  | _, [] => .ok ()
  | i, r :: rest =>
    match checkRequired (roomTypeTests i r) with
    | .error e => .error e
    | .ok _ => roomTypesCheck (i + 1) rest

/-- Per-element required-field table for one rate plan. The name is passed
through the proto `String()` representation, the cancellation policy as a raw
pointer. -/
def ratePlanTests (i : Nat) (r : RatePlan) : List requiredTest :=
  [{ field := "rate_plans[" ++ toString i ++ "] > code", got := .str r.code },
   { field := "rate_plans[" ++ toString i ++ "] > name",
     got := .str (DisplayString.textRepr r.name) },
   { field := "rate_plans[" ++ toString i ++ "] > cancellation_policy",
     got := .cancellationPolicy r.cancellation_policy }]

/-- The `for i, r := range resp.GetRatePlans()` loop. -/
def ratePlansCheck : Nat → List RatePlan → Except String Unit
  | _, [] => .ok ()
  | i, r :: rest =>
    match checkRequired (ratePlanTests i r) with
    | .error e => .error e
    | .ok _ => ratePlansCheck (i + 1) rest

/-- The inner `for j, l := range r.GetLineItems()` table: one required check
per line item on the price amount read through the nil-tolerant getters. -/
def lineItemTests (i : Nat) : Nat → List LineItem → List requiredTest
  | _, [] => []
  | j, l :: rest =>
    { field := "room_rates[" ++ toString i ++ "] > line_items[" ++ toString j ++ "] > price",
      got := .int (Price.getAmount l.price) } :: lineItemTests i (j + 1) rest

/-- The full required-field table for one room rate: all line-item prices,
then the rate's own code (`rt = append(rt, ...)` in the source). -/
def roomRateTests (i : Nat) (r : RoomRate) : List requiredTest :=
  lineItemTests i 0 r.line_items ++
    [{ field := "room_rates[" ++ toString i ++ "] > code", got := .str r.code }]

/-- The `for i, r := range resp.GetRoomRates()` loop: per-rate required
checks, then the two referential-integrity membership tests, each returning
immediately on failure. -/
def roomRatesCheck (roomTypeCodes ratePlanCodes : List String) :
    Nat → List RoomRate → Except String Unit
  | _, [] => .ok ()
  | i, r :: rest =>
    match checkRequired (roomRateTests i r) with
    | .error e => .error e
    | .ok _ =>
      if !(valuePresent r.room_type_code roomTypeCodes) then
        .error ("room_rates > room_type_code " ++ r.room_type_code ++
          " not present in room_types > code")
      else if !(valuePresent r.rate_plan_code ratePlanCodes) then
        .error ("room_rates > rate_plan_code " ++ r.rate_plan_code ++
          " not present in rate_plans > code")
      else roomRatesCheck roomTypeCodes ratePlanCodes (i + 1) rest

/-- ValidateBookingAvailabilityResponse ensures the availability search
criteria matches the echoed response: required fields, formats, echo fields,
then the three per-element loops. -/
def ValidateBookingAvailabilityResponse (req : BookingAvailabilityRequest)
    (resp : BookingAvailabilityResponse) : Except String Unit :=
  match checkRequired (availabilityRequiredTests resp) with
  | .error e => .error e
  | .ok _ =>
  match validateFormat (availabilityFormatTests resp) with
  | .error e => .error e
  | .ok _ =>
  match compareFields (availabilityEchoTests req resp) with
  | .error e => .error e
  | .ok _ =>
  let roomTypeCodes := resp.room_types.map RoomType.code
  let ratePlanCodes := resp.rate_plans.map RatePlan.code
  match roomTypesCheck 0 resp.room_types with
  | .error e => .error e
  | .ok _ =>
  match ratePlansCheck 0 resp.rate_plans with
  | .error e => .error e
  | .ok _ => roomRatesCheck roomTypeCodes ratePlanCodes 0 resp.room_rates

/-- The required-field table of the Submit validator. The status enum is
passed through its `String()` name. -/
def submitRequiredTests (resp : BookingSubmitResponse) : List requiredTest :=
  [{ field := "api_version", got := .int resp.api_version },
   { field := "transaction_id", got := .str resp.transaction_id },
   { field := "status", got := .str (statusString resp.status) },
   { field := "reservation > locator > id",
     got := .str (Locator.getId (Reservation.getLocator resp.reservation)) }]

/-- The echo table of the Submit validator. -/
def submitEchoTests (req : BookingSubmitRequest) (resp : BookingSubmitResponse) :
    List validationTest :=
  [{ field := "hotel_id", want := .str req.hotel_id,
     got := .str (Reservation.getHotelId resp.reservation) },
   { field := "start_date", want := .str req.start_date,
     got := .str (Reservation.getStartDate resp.reservation) },
   { field := "end_date", want := .str req.end_date,
     got := .str (Reservation.getEndDate resp.reservation) },
   { field := "customer", want := .customer req.customer,
     got := .customer (Reservation.getCustomer resp.reservation) },
   { field := "traveler", want := .traveler req.traveler,
     got := .traveler (Reservation.getTraveler resp.reservation) },
   { field := "room_rate", want := .roomRate req.room_rate,
     got := .roomRate (Reservation.getRoomRate resp.reservation) }]

/-- ValidateBookingSubmitResponse checks for required fields and matching
echo responses (there is no format phase in the Submit validator). -/
def ValidateBookingSubmitResponse (req : BookingSubmitRequest)
    (resp : BookingSubmitResponse) : Except String Unit :=
  match checkRequired (submitRequiredTests resp) with
  | .error e => .error e
  | .ok _ => compareFields (submitEchoTests req resp)

/-- A fully-default (absent) `RoomType`, the proto zero message. -/
def emptyRoomType : RoomType :=
  { code := "", name := none, description := none, basic_amenities := none,
    photos := [], capacity := none, bed_types := none, unstructured_policies := [],
    amenities := [], room_area_sq_meters := 0, room_area_sq_feet := 0 }

/-- A fully-default `RatePlan`. -/
def emptyRatePlan : RatePlan :=
  { code := "", name := none, description := none, basic_amenities := none,
    guarantee_type := 0, cancellation_policy := none, unstructured_policies := [],
    rate_restrictions := [] }

/-- A fully-default `LineItem`. -/
def emptyLineItem : LineItem :=
  { price := none, type := 0, paid_at_checkout := false, description := none }

/-- A fully-default `RoomRate`. -/
def emptyRoomRate : RoomRate :=
  { code := "", room_type_code := "", rate_plan_code := "",
    maximum_allowed_occupancy := none, total_price_at_booking := none,
    total_price_at_checkout := none, line_items := [], cancellation_rules := [],
    unstructured_policy := none, partner_data := [], room_count := 0 }

/-- A fully-default `Address`. -/
def emptyAddress : Address :=
  { address1 := "", address2 := "", address3 := "", city := "", province := "",
    postal_code := "", country := "" }

/-- A fully-default `HotelDetails`. -/
def emptyHotelDetails : HotelDetails :=
  { name := "", address := none, geolocation := none, phone_number := "",
    policies := none, photos := [], email := "", homepage_url := "" }

/-- A fully-default `BookingAvailabilityRequest`. -/
def emptyAvailabilityRequest : BookingAvailabilityRequest :=
  { api_version := 0, transaction_id := "", tracking := none, hotel_id := "",
    start_date := "", end_date := "", party := none, language := "",
    currency := "", user_country := "", device_type := 0 }

/-- A fully-default `BookingAvailabilityResponse`, as unmarshalled from an
empty JSON body: every nested message absent, every list empty. -/
def emptyAvailabilityResponse : BookingAvailabilityResponse :=
  { api_version := 0, transaction_id := "", hotel_id := "", start_date := "",
    end_date := "", party := none, room_types := [], rate_plans := [],
    room_rates := [], hotel_details := none, policies := none, error := none }

/-- A fully-default `BookingSubmitRequest`. -/
def emptySubmitRequest : BookingSubmitRequest :=
  { api_version := 0, transaction_id := "", tracking := none, hotel_id := "",
    start_date := "", end_date := "", ip_address := "", language := "",
    customer := none, traveler := none, room_rate := none, payment := none }

/-- A fully-default `BookingSubmitResponse`. -/
def emptySubmitResponse : BookingSubmitResponse :=
  { api_version := 0, transaction_id := "", status := 0, reservation := none,
    error := none }

/-- A fully-default `Reservation`. -/
def emptyReservation : Reservation :=
  { locator := none, hotel_locators := [], hotel_id := "", start_date := "",
    end_date := "", customer := none, traveler := none, room_rate := none }

/-- A sample conformant hotel-details block. -/
def sampleHotelDetails : HotelDetails :=
  { emptyHotelDetails with
    name := "Hotel"
    address := some { emptyAddress with
      address1 := "1 Main St", city := "Springfield", province := "SP", country := "DE" } }

/-- A sample conformant room type. -/
def sampleRoomType : RoomType :=
  { emptyRoomType with
    code := "RT1"
    name := some { text := "Standard", language := "en" } }

/-- A sample conformant rate plan. -/
def sampleRatePlan : RatePlan :=
  { emptyRatePlan with
    code := "RP1"
    name := some { text := "Flex", language := "en" }
    cancellation_policy := some
      { summary := 1, cancellation_deadline := "", unstructured_policy := none } }

/-- A sample conformant room rate referencing `sampleRoomType` and
`sampleRatePlan`. -/
def sampleRoomRate : RoomRate :=
  { emptyRoomRate with
    code := "RR1"
    room_type_code := "RT1"
    rate_plan_code := "RP1"
    line_items := [{ emptyLineItem with price := some { amount := 100, currency := "USD" } }] }

/-- A sample conformant availability request. -/
def sampleAvailabilityRequest : BookingAvailabilityRequest :=
  { emptyAvailabilityRequest with
    api_version := 1
    transaction_id := "tx1"
    hotel_id := "h1"
    start_date := "2024-01-01"
    end_date := "2024-01-02"
    party := some { adults := 2, children := [] } }

/-- A sample conformant availability response echoing
`sampleAvailabilityRequest`. -/
def sampleAvailabilityResponse : BookingAvailabilityResponse :=
  { emptyAvailabilityResponse with
    api_version := 1
    transaction_id := "tx1"
    hotel_id := "h1"
    start_date := "2024-01-01"
    end_date := "2024-01-02"
    party := some { adults := 2, children := [] }
    hotel_details := some sampleHotelDetails
    room_types := [sampleRoomType]
    rate_plans := [sampleRatePlan]
    room_rates := [sampleRoomRate] }

/-- A sample conformant submit request. -/
def sampleSubmitRequest : BookingSubmitRequest :=
  { emptySubmitRequest with
    api_version := 1
    transaction_id := "tx2"
    hotel_id := "h1"
    start_date := "2024-01-01"
    end_date := "2024-01-02"
    ip_address := "1.2.3.4"
    language := "en"
    customer := some { first_name := "A", last_name := "B", phone_number := "555",
                       email := "a@b.c", country := "US", join_loyalty_program := false,
                       loyalty_member_id := "" }
    traveler := some { first_name := "A", last_name := "B",
                       occupancy := some { adults := 2, children := [] } }
    room_rate := some sampleRoomRate }

/-- A sample conformant submit response echoing `sampleSubmitRequest`. -/
def sampleSubmitResponse : BookingSubmitResponse :=
  { emptySubmitResponse with
    api_version := 1
    transaction_id := "tx2"
    status := 0
    reservation := some { emptyReservation with
      locator := some { id := "L1", pin := "" }
      hotel_id := "h1"
      start_date := "2024-01-01"
      end_date := "2024-01-02"
      customer := sampleSubmitRequest.customer
      traveler := sampleSubmitRequest.traveler
      room_rate := some sampleRoomRate } }

/-- Submit response of the spec's worked example: `reservation.locator.id`,
`api_version` and `transaction_id` all zero-valued, everything else default
(`status` defaults to `SUCCESS`, whose name string is non-empty). -/
def exampleMissingSubmitResponse : BookingSubmitResponse :=
  { emptySubmitResponse with
    reservation := some { emptyReservation with locator := some { id := "", pin := "" } } }

/-- Availability response in which the elements at indices 0 and 1 of
`room_types` both have a missing required field (`code`). -/
def twoBadRoomTypesResponse : BookingAvailabilityResponse :=
  { sampleAvailabilityResponse with
    room_types := [{ emptyRoomType with name := some { text := "A", language := "" } },
                   { emptyRoomType with name := some { text := "B", language := "" } }] }

/-- Availability response whose first room type is conformant and whose
second room type is missing its required `code`. -/
def secondBadRoomTypeResponse : BookingAvailabilityResponse :=
  { sampleAvailabilityResponse with
    room_types := [sampleRoomType,
                   { emptyRoomType with name := some { text := "B", language := "" } }] }

/-- Submit request whose dates are syntactically valid dates in the wrong
format (`20010401` instead of `2001-04-01`). -/
def wrongDateSubmitRequest : BookingSubmitRequest :=
  { sampleSubmitRequest with start_date := "20010401", end_date := "20010402" }

/-- Submit response faithfully echoing `wrongDateSubmitRequest`, wrong date
format included. -/
def wrongDateSubmitResponse : BookingSubmitResponse :=
  { sampleSubmitResponse with
    reservation := some { emptyReservation with
      locator := some { id := "L1", pin := "" }
      hotel_id := "h1"
      start_date := "20010401"
      end_date := "20010402"
      customer := sampleSubmitRequest.customer
      traveler := sampleSubmitRequest.traveler
      room_rate := some sampleRoomRate } }

/-- Availability response whose `start_date` is `20010401`, a real date in
the wrong format (the repository's own format test case). -/
def wrongStartDateAvailabilityResponse : BookingAvailabilityResponse :=
  { sampleAvailabilityResponse with start_date := "20010401" }

/-- Availability request matching `wrongStartDateAvailabilityResponse` on the
echo fields. -/
def wrongStartDateAvailabilityRequest : BookingAvailabilityRequest :=
  { sampleAvailabilityRequest with start_date := "20010401" }

/-- Availability response whose rate plan carries a present but
entirely-default `cancellation_policy` composite. -/
def defaultPolicyResponse : BookingAvailabilityResponse :=
  { sampleAvailabilityResponse with
    rate_plans := [{ sampleRatePlan with
      cancellation_policy := some
        { summary := 0, cancellation_deadline := "", unstructured_policy := none } }] }

/-- Availability response whose second room rate references an undeclared
room type code, followed by a third rate that is itself broken. -/
def badRefRoomRatesResponse : BookingAvailabilityResponse :=
  { sampleAvailabilityResponse with
    room_rates := [sampleRoomRate,
                   { sampleRoomRate with room_type_code := "ZZZ" },
                   { emptyRoomRate with line_items := [emptyLineItem] }] }

/-- Availability response that passes the scalar phases and has no repeated
sub-entities at all. -/
def emptyListsAvailabilityResponse : BookingAvailabilityResponse :=
  { sampleAvailabilityResponse with room_types := [], rate_plans := [], room_rates := [] }

/-- Pointwise list update, Go's `slice[i] = f(slice[i])` on an index that may
be out of range (then a no-op). -/
def modifyAt (f : α → α) : Nat → List α → List α
  | _, [] => []
  | 0, x :: xs => f x :: xs
  | n + 1, x :: xs => x :: modifyAt f n xs

/-- Replace the price of a line item. -/
def withPrice (p : Option Price) (l : LineItem) : LineItem := { l with price := p }

/-- Replace the price of line item `j` of a room rate. -/
def setRatePrice (j : Nat) (p : Option Price) (r : RoomRate) : RoomRate :=
  { r with line_items := modifyAt (withPrice p) j r.line_items }

/-- Replace the price of line item `j` of room rate `i` of a response. -/
def setLineItemPrice (resp : BookingAvailabilityResponse) (i j : Nat)
    (p : Option Price) : BookingAvailabilityResponse :=
  { resp with room_rates := modifyAt (setRatePrice j p) i resp.room_rates }

/-- JSON document model for the UTF-8 JSON wire format of the spec. -/
inductive Json where
  | null
  | bool (b : Bool)
  | num (n : Int)
  | str (s : String)
  | arr (elems : List Json)
  | obj (fields : List (String × Json))

/-- Look a key up in a JSON object's field list. -/
def jfield (fields : List (String × Json)) (k : String) : Option Json :=
  (fields.find? (fun p => p.fst == k)).map (fun p => p.snd)

/-- Read a JSON value as a string, defaulting to the proto zero value. -/
def asStr : Option Json → String
  | some (.str s) => s
  | _ => ""

/-- Read a JSON value as an integer, defaulting to the proto zero value. -/
def asInt : Option Json → Int
  | some (.num n) => n
  | _ => 0

/-- Read a JSON value as a list of integers. -/
def asIntList : Option Json → List Int
  | some (.arr xs) => xs.map (fun j => match j with | .num n => n | _ => 0)
  | _ => []

/-- The declared value names of the `DeviceType` enum, in declaration order. -/
def deviceTypeName (n : Int) : Option String :=
  if n = 0 then some "UNKNOWN_DEVICE_TYPE"
  else if n = 1 then some "DESKTOP"
  else if n = 2 then some "MOBILE"
  else if n = 3 then some "TABLET"
  else none

/-- JSON form of a possibly-absent sub-message: nil serializes as null. -/
def optJson (f : A → Json) : Option A → Json
  | none => .null
  | some x => f x

/-- Modelled from the spec: the protobuf JSON form serializes a declared enum
value by its name and an undeclared value by its number. -/
def deviceTypeToJson (n : Int) : Json :=
  match deviceTypeName n with
  | some s => .str s
  | none => .num n

/-- Modelled from the spec: the protobuf JSON reader accepts an enum either
by name or by number. -/
def deviceTypeOfJson : Option Json → Int
  | some (.str "UNKNOWN_DEVICE_TYPE") => 0
  | some (.str "DESKTOP") => 1
  | some (.str "MOBILE") => 2
  | some (.str "TABLET") => 3
  | some (.num n) => n
  | _ => 0

/-- Modelled from the spec: JSON form of a `Tracking` message under original
field names. -/
def Tracking.toJson (t : Tracking) : Json :=
  .obj [("campaign_id", .str t.campaign_id), ("pos_url", .str t.pos_url)]

/-- Modelled from the spec: read a possibly-absent `Tracking` message. -/
def asTracking : Option Json → Option Tracking
  | some (.obj fs) => some { campaign_id := asStr (jfield fs "campaign_id")
                             pos_url := asStr (jfield fs "pos_url") }
  | _ => none

/-- Modelled from the spec: JSON form of an `Occupancy` message under
original field names. -/
def Occupancy.toJson (o : Occupancy) : Json :=
  .obj [("adults", .num o.adults), ("children", .arr (o.children.map Json.num))]

/-- Modelled from the spec: read a possibly-absent `Occupancy` message. -/
def asOccupancy : Option Json → Option Occupancy
  | some (.obj fs) => some { adults := asInt (jfield fs "adults")
                             children := asIntList (jfield fs "children") }
  | _ => none

/-- Modelled from the spec: the wire form of a `BookingAvailabilityRequest`
produced by the serializer configured with original (proto) field names; an
absent sub-message is carried as JSON null. -/
def availabilityRequestToJson (r : BookingAvailabilityRequest) : Json :=
  .obj [("api_version", .num r.api_version),
        ("transaction_id", .str r.transaction_id),
        ("tracking", optJson Tracking.toJson r.tracking),
        ("hotel_id", .str r.hotel_id),
        ("start_date", .str r.start_date),
        ("end_date", .str r.end_date),
        ("party", optJson Occupancy.toJson r.party),
        ("language", .str r.language),
        ("currency", .str r.currency),
        ("user_country", .str r.user_country),
        ("device_type", deviceTypeToJson r.device_type)]

/-- Modelled from the spec: the protobuf JSON reader for
`BookingAvailabilityRequest` (library code of the `.json` branch of
`LoadRequest`, not part of the repository): absent scalar fields read as
their zero values, absent or null sub-messages as nil. -/
def availabilityRequestOfJson : Json → Except String BookingAvailabilityRequest
  | .obj fs =>
    .ok { api_version := asInt (jfield fs "api_version")
          transaction_id := asStr (jfield fs "transaction_id")
          tracking := asTracking (jfield fs "tracking")
          hotel_id := asStr (jfield fs "hotel_id")
          start_date := asStr (jfield fs "start_date")
          end_date := asStr (jfield fs "end_date")
          party := asOccupancy (jfield fs "party")
          language := asStr (jfield fs "language")
          currency := asStr (jfield fs "currency")
          user_country := asStr (jfield fs "user_country")
          device_type := deviceTypeOfJson (jfield fs "device_type") }
  | _ => .error "json: cannot unmarshal into BookingAvailabilityRequest"

/-- Tail of a reversed path up to the first dot, Go's `path.Ext` scan: the
extension starts at the final dot of the final slash-separated element. -/
def extFromRev (acc : List Char) : List Char → String
  | [] => ""
  | '/' :: _ => ""
  | '.' :: _ => String.mk ('.' :: acc)
  | c :: rest => extFromRev (c :: acc) rest

/-- Go's `path.Ext`. -/
def pathExtGo (p : String) : String :=
  extFromRev [] p.data.reverse

/-- LoadRequest loads the request file and returns its parsed version
(source: `LoadRequest`, dispatching on `path.Ext`). The file content is
modelled at the JSON document level; the `.pb3` text-proto branch parses a
different surface syntax and is outside this model, so it is represented by
its error-free fallthrough being unreachable for `.json` paths only. -/
def LoadAvailabilityRequest (fp : String) (content : Json) :
    Except String BookingAvailabilityRequest :=
  if pathExtGo fp = ".json" then
    match availabilityRequestOfJson content with
    | .ok r => .ok r
    | .error e => .error ("unable to parse request as json: " ++ e)
  else
    .error ("unexpected extension for file " ++ fp ++ ", expected .json or .pb3")

/-- A conformant line item with a non-zero price. -/
def goodLineItem : LineItem :=
  { emptyLineItem with price := some { amount := 100, currency := "USD" } }

/-- A line item whose price is present with amount 0. -/
def zeroLineItem : LineItem :=
  { emptyLineItem with price := some { amount := 0, currency := "USD" } }

/-- Availability response whose first rate plan is conformant and whose
second rate plan is missing its required `cancellation_policy`. -/
def secondBadRatePlanResponse : BookingAvailabilityResponse :=
  { sampleAvailabilityResponse with
    rate_plans := [sampleRatePlan,
                   { emptyRatePlan with
                     code := "RP2"
                     name := some { text := "X", language := "" } }] }

/-- Availability response whose first room rate is conformant and whose
second room rate is missing its code and two of its three nested line-item
prices (one absent, one zero). -/
def secondBadRoomRateResponse : BookingAvailabilityResponse :=
  { sampleAvailabilityResponse with
    room_rates := [sampleRoomRate,
                   { emptyRoomRate with
                     room_type_code := "RT1"
                     rate_plan_code := "RP1"
                     line_items := [goodLineItem, emptyLineItem, zeroLineItem] }] }

/-- A conformant room rate with two non-zero line items. -/
def twoLineItemRate : RoomRate :=
  { sampleRoomRate with line_items := [goodLineItem, zeroLineItem] }

/-- Availability response whose second rate has two line items; the second
line item's price is the one replaced in the C9 scenarios. -/
def twoLineItemResponse : BookingAvailabilityResponse :=
  { sampleAvailabilityResponse with room_rates := [sampleRoomRate, twoLineItemRate] }

theorem checkRequired_eq_ok {r : List requiredTest}
    (h : ∀ t ∈ r, t.got.isZero = false) : checkRequired r = .ok () := by
  have hf : r.filter (fun rr => rr.got.isZero) = [] :=
    List.filter_eq_nil_iff.mpr (by intro a ha; simp [h a ha])
  simp [checkRequired, hf]

theorem checkRequired_eq_error {r : List requiredTest}
    (h : (r.filter (fun rr => rr.got.isZero)).map (fun rr => rr.field) ≠ []) :
    checkRequired r = .error ("required field(s) missing: " ++
      String.intercalate ", "
        ((r.filter (fun rr => rr.got.isZero)).map (fun rr => rr.field))) := by
  simp only [checkRequired]
  rw [if_neg (by simpa [List.isEmpty_iff] using h)]

theorem checkRequired_shape (r : List requiredTest) :
    checkRequired r = .ok () ∨
      ∃ t, checkRequired r = .error ("required field(s) missing: " ++ t) := by
  simp only [checkRequired]
  split
  · exact Or.inl rfl
  · exact Or.inr ⟨_, rfl⟩

theorem compareFields_eq_ok {v : List validationTest}
    (h : ∀ t ∈ v, t.got = t.want) : compareFields v = .ok () := by
  have hf : v.filter (fun vv => !(vv.got == vv.want)) = [] :=
    List.filter_eq_nil_iff.mpr (by intro a ha; simp [h a ha])
  simp [compareFields, hf]

theorem compareFields_shape (v : List validationTest) :
    compareFields v = .ok () ∨
      ∃ t, compareFields v = .error ("echo field(s) did not match request: " ++ t) := by
  simp only [compareFields]
  split
  · exact Or.inl rfl
  · exact Or.inr ⟨_, rfl⟩

theorem validateFormat_eq_ok {f : List formatTest}
    (h : ∀ t ∈ f, patternMatch t.pattern t.value = true) : validateFormat f = .ok () := by
  have hf : f.filter (fun ff => !(patternMatch ff.pattern ff.value)) = [] :=
    List.filter_eq_nil_iff.mpr (by intro a ha; simp [h a ha])
  simp [validateFormat, hf]

theorem validateFormat_eq_error {f : List formatTest}
    (h : (f.filter (fun ff => !(patternMatch ff.pattern ff.value))).map
        (fun ff => ff.field) ≠ []) :
    validateFormat f = .error ("error validating format for field(s): " ++
      String.intercalate ", "
        ((f.filter (fun ff => !(patternMatch ff.pattern ff.value))).map
          (fun ff => ff.field))) := by
  simp only [validateFormat]
  rw [if_neg (by simpa [List.isEmpty_iff] using h)]

theorem roomTypeTests_ok {i : Nat} {r : RoomType} (h1 : r.code ≠ "")
    (h2 : DisplayString.textRepr r.name ≠ "") :
    checkRequired (roomTypeTests i r) = .ok () := by
  apply checkRequired_eq_ok
  intro t ht
  simp only [roomTypeTests, List.mem_cons, List.not_mem_nil, or_false] at ht
  rcases ht with h | h <;> subst h <;> simp [FieldValue.isZero]
  · exact h1
  · exact h2

theorem ratePlanTests_ok {i : Nat} {r : RatePlan} (h1 : r.code ≠ "")
    (h2 : DisplayString.textRepr r.name ≠ "") (h3 : r.cancellation_policy ≠ none) :
    checkRequired (ratePlanTests i r) = .ok () := by
  apply checkRequired_eq_ok
  intro t ht
  simp only [ratePlanTests, List.mem_cons, List.not_mem_nil, or_false] at ht
  rcases ht with h | h | h <;> subst h <;> simp [FieldValue.isZero]
  · exact h1
  · exact h2
  · exact Option.ne_none_iff_isSome.mp h3

theorem lineItemTests_mem (i : Nat) (items : List LineItem) :
    ∀ (j : Nat) (t : requiredTest), t ∈ lineItemTests i j items →
      ∃ l, l ∈ items ∧ t.got = .int (Price.getAmount l.price) := by
  induction items with
  | nil => intro j t ht; simp [lineItemTests] at ht
  | cons a rest ih =>
    intro j t ht
    simp only [lineItemTests, List.mem_cons] at ht
    rcases ht with h | h
    · exact ⟨a, by simp, by rw [h]⟩
    · obtain ⟨x, hx, hg⟩ := ih (j + 1) t h
      exact ⟨x, by simp [hx], hg⟩

theorem roomRateTests_ok {i : Nat} {r : RoomRate} (h1 : r.code ≠ "")
    (h2 : ∀ li ∈ r.line_items, Price.getAmount li.price ≠ 0) :
    checkRequired (roomRateTests i r) = .ok () := by
  apply checkRequired_eq_ok
  intro t ht
  simp only [roomRateTests, List.mem_append, List.mem_cons, List.not_mem_nil,
    or_false] at ht
  rcases ht with h | h
  · obtain ⟨x, hx, hg⟩ := lineItemTests_mem i r.line_items 0 t h
    rw [hg]
    simpa [FieldValue.isZero] using h2 x hx
  · subst h
    simpa [FieldValue.isZero] using h1

theorem roomTypesCheck_eq_ok {l : List RoomType}
    (h : ∀ r ∈ l, r.code ≠ "" ∧ DisplayString.textRepr r.name ≠ "") :
    ∀ i, roomTypesCheck i l = .ok () := by
  induction l with
  | nil => intro i; rfl
  | cons r rest ih =>
    intro i
    obtain ⟨h1, h2⟩ := h r (by simp)
    simp only [roomTypesCheck, roomTypeTests_ok h1 h2]
    exact ih (fun x hx => h x (by simp [hx])) (i + 1)

theorem ratePlansCheck_eq_ok {l : List RatePlan}
    (h : ∀ r ∈ l, r.code ≠ "" ∧ DisplayString.textRepr r.name ≠ "" ∧
      r.cancellation_policy ≠ none) :
    ∀ i, ratePlansCheck i l = .ok () := by
  induction l with
  | nil => intro i; rfl
  | cons r rest ih =>
    intro i
    obtain ⟨h1, h2, h3⟩ := h r (by simp)
    simp only [ratePlansCheck, ratePlanTests_ok h1 h2 h3]
    exact ih (fun x hx => h x (by simp [hx])) (i + 1)

theorem roomRatesCheck_eq_ok {a b : List String} {l : List RoomRate}
    (h : ∀ r ∈ l, r.code ≠ "" ∧ (∀ li ∈ r.line_items, Price.getAmount li.price ≠ 0) ∧
      valuePresent r.room_type_code a = true ∧ valuePresent r.rate_plan_code b = true) :
    ∀ i, roomRatesCheck a b i l = .ok () := by
  induction l with
  | nil => intro i; rfl
  | cons r rest ih =>
    intro i
    obtain ⟨h1, h2, h3, h4⟩ := h r (by simp)
    simp only [roomRatesCheck, roomRateTests_ok h1 h2, h3, h4]
    exact ih (fun x hx => h x (by simp [hx])) (i + 1)

theorem validateAvailability_phases {req : BookingAvailabilityRequest}
    {resp : BookingAvailabilityResponse}
    (h1 : checkRequired (availabilityRequiredTests resp) = .ok ())
    (h2 : validateFormat (availabilityFormatTests resp) = .ok ())
    (h3 : compareFields (availabilityEchoTests req resp) = .ok ()) :
    ValidateBookingAvailabilityResponse req resp =
      (match roomTypesCheck 0 resp.room_types with
       | .error e => .error e
       | .ok _ =>
         match ratePlansCheck 0 resp.rate_plans with
         | .error e => .error e
         | .ok _ => roomRatesCheck (resp.room_types.map RoomType.code)
             (resp.rate_plans.map RatePlan.code) 0 resp.room_rates) := by
  unfold ValidateBookingAvailabilityResponse
  simp only [h1, h2, h3]

theorem roomTypesCheck_append {pre : List RoomType}
    (h : ∀ x ∈ pre, x.code ≠ "" ∧ DisplayString.textRepr x.name ≠ "") :
    ∀ (i : Nat) (l : List RoomType),
      roomTypesCheck i (pre ++ l) = roomTypesCheck (i + pre.length) l := by
  induction pre with
  | nil => intro i l; simp
  | cons x rest ih =>
    intro i l
    obtain ⟨hx1, hx2⟩ := h x (by simp)
    simp only [List.cons_append, roomTypesCheck, roomTypeTests_ok hx1 hx2, List.append_eq]
    rw [ih (fun y hy => h y (by simp [hy])) (i + 1) l]
    congr 1
    simp only [List.length_cons]
    omega

/-- C1: whenever the Submit required-field table has a nonempty zero-valued
subset, validation reports exactly those field paths, in declaration order,
in a single missing-required message, untouched by the echo phase. -/
theorem claim1_submit_missing_required_exact
    (req : BookingSubmitRequest) (resp : BookingSubmitResponse)
    (h : ((submitRequiredTests resp).filter (fun rr => rr.got.isZero)).map
        (fun rr => rr.field) ≠ []) :
    ValidateBookingSubmitResponse req resp =
      .error ("required field(s) missing: " ++ String.intercalate ", "
        (((submitRequiredTests resp).filter (fun rr => rr.got.isZero)).map
          (fun rr => rr.field))) := by
  unfold ValidateBookingSubmitResponse
  rw [checkRequired_eq_error h]

/-- Witness for C1 at the spec's worked example: `reservation.locator.id`,
`api_version`, `transaction_id` zeroed yields exactly the example message. -/
theorem claim1_witness :
    (((submitRequiredTests exampleMissingSubmitResponse).filter
        (fun rr => rr.got.isZero)).map (fun rr => rr.field) ≠ []) ∧
    ValidateBookingSubmitResponse emptySubmitRequest exampleMissingSubmitResponse =
      .error "required field(s) missing: api_version, transaction_id, reservation > locator > id" :=
  ⟨by decide, by
    rw [claim1_submit_missing_required_exact emptySubmitRequest
      exampleMissingSubmitResponse (by decide)]
    rfl⟩

/-- C2: when every required check is populated, every format check matches,
every echo check is structurally equal, and every room rate's codes appear
among the declared codes, both validators return Valid. -/
theorem claim2_valid_when_all_pass :
    (∀ (req : BookingAvailabilityRequest) (resp : BookingAvailabilityResponse),
      (∀ t ∈ availabilityRequiredTests resp, t.got.isZero = false) →
      (∀ t ∈ availabilityFormatTests resp, patternMatch t.pattern t.value = true) →
      (∀ t ∈ availabilityEchoTests req resp, t.got = t.want) →
      (∀ r ∈ resp.room_types, r.code ≠ "" ∧ DisplayString.textRepr r.name ≠ "") →
      (∀ r ∈ resp.rate_plans, r.code ≠ "" ∧ DisplayString.textRepr r.name ≠ "" ∧
        r.cancellation_policy ≠ none) →
      (∀ r ∈ resp.room_rates, r.code ≠ "" ∧
        (∀ li ∈ r.line_items, Price.getAmount li.price ≠ 0) ∧
        valuePresent r.room_type_code (resp.room_types.map RoomType.code) = true ∧
        valuePresent r.rate_plan_code (resp.rate_plans.map RatePlan.code) = true) →
      ValidateBookingAvailabilityResponse req resp = .ok ()) ∧
    (∀ (req : BookingSubmitRequest) (resp : BookingSubmitResponse),
      (∀ t ∈ submitRequiredTests resp, t.got.isZero = false) →
      (∀ t ∈ submitEchoTests req resp, t.got = t.want) →
      ValidateBookingSubmitResponse req resp = .ok ()) := by
  constructor
  · intro req resp h1 h2 h3 h4 h5 h6
    rw [validateAvailability_phases (checkRequired_eq_ok h1)
      (validateFormat_eq_ok h2) (compareFields_eq_ok h3)]
    rw [roomTypesCheck_eq_ok h4 0, ratePlansCheck_eq_ok h5 0, roomRatesCheck_eq_ok h6 0]
  · intro req resp h1 h2
    unfold ValidateBookingSubmitResponse
    rw [checkRequired_eq_ok h1, compareFields_eq_ok h2]

/-- Witness for C2: a fully conformant pair of each kind validates as Valid. -/
theorem claim2_witness :
    ValidateBookingAvailabilityResponse sampleAvailabilityRequest
      sampleAvailabilityResponse = .ok () ∧
    ValidateBookingSubmitResponse sampleSubmitRequest sampleSubmitResponse = .ok () :=
  ⟨claim2_valid_when_all_pass.1 sampleAvailabilityRequest sampleAvailabilityResponse
      (by decide) (by decide) (by decide) (by decide) (by decide) (by decide),
   claim2_valid_when_all_pass.2 sampleSubmitRequest sampleSubmitResponse
      (by decide) (by decide)⟩

/-- C3 counterexample: with the elements at indices 0 and 1 of `room_types`
both missing their required `code`, the returned failure names only index 0;
the phase does not collect failures across elements. -/
theorem claim3_counterexample :
    ValidateBookingAvailabilityResponse sampleAvailabilityRequest
      twoBadRoomTypesResponse =
      .error "required field(s) missing: room_types[0] > code" := rfl

/-- C7 counterexample: a rate plan whose required `cancellation_policy`
composite is present but entirely default is not reported missing; the whole
response validates as Valid. -/
theorem claim7_counterexample :
    (defaultPolicyResponse.rate_plans.map RatePlan.cancellation_policy =
      [some { summary := 0, cancellation_deadline := "", unstructured_policy := none }]) ∧
    ValidateBookingAvailabilityResponse sampleAvailabilityRequest
      defaultPolicyResponse = .ok () := ⟨rfl, rfl⟩

/-- C7 amended: the zero-value test is reflection-based `IsZero` on the value
handed to the checker: empty strings and zero numbers fail it; enum fields
pass through their never-empty name strings (the default is `SUCCESS`);
composite message fields are passed as pointers and fail only when absent, so
a present but default composite passes the required check. -/
theorem claim7_amended_zero_test (d : CancellationPolicy) (f : String) :
    FieldValue.isZero (.str "") = true ∧
    FieldValue.isZero (.int 0) = true ∧
    FieldValue.isZero (.cancellationPolicy none) = true ∧
    FieldValue.isZero (.cancellationPolicy (some d)) = false ∧
    statusString 0 = "SUCCESS" ∧
    checkRequired [{ field := f, got := .cancellationPolicy (some d) }] = .ok () := by
  refine ⟨rfl, rfl, rfl, rfl, rfl, ?_⟩
  apply checkRequired_eq_ok
  intro t ht
  simp only [List.mem_singleton] at ht
  subst ht
  rfl

/-- C10: both validators are total and read absent sub-messages as defaults:
the all-default availability response fails with exactly the top-level
missing-required report, the all-default submit response with its own
(status defaults to a named enum value and passes), and a response passing
the scalar phases with all three repeated lists empty is Valid (phases 4 and
5 hold vacuously). -/
theorem claim10_totality_and_defaults :
    (∀ req : BookingAvailabilityRequest,
      ValidateBookingAvailabilityResponse req emptyAvailabilityResponse =
        .error "required field(s) missing: api_version, transaction_id, hotel_id, party > adults, hotel_details > name, hotel_details > address > address1, hotel_details > address > city, hotel_details > address > province") ∧
    (∀ req : BookingSubmitRequest,
      ValidateBookingSubmitResponse req emptySubmitResponse =
        .error "required field(s) missing: api_version, transaction_id, reservation > locator > id") ∧
    (∀ (req : BookingAvailabilityRequest) (resp : BookingAvailabilityResponse),
      resp.room_types = [] → resp.rate_plans = [] → resp.room_rates = [] →
      checkRequired (availabilityRequiredTests resp) = .ok () →
      validateFormat (availabilityFormatTests resp) = .ok () →
      compareFields (availabilityEchoTests req resp) = .ok () →
      ValidateBookingAvailabilityResponse req resp = .ok ()) := by
  refine ⟨fun req => rfl, fun req => rfl, ?_⟩
  intro req resp e1 e2 e3 h1 h2 h3
  rw [validateAvailability_phases h1 h2 h3, e1, e2, e3]
  rfl

/-- Witness for C10's vacuous-phases conjunct: a response passing the scalar
phases with empty repeated lists validates as Valid. -/
theorem claim10_witness :
    ValidateBookingAvailabilityResponse sampleAvailabilityRequest
      emptyListsAvailabilityResponse = .ok () :=
  claim10_totality_and_defaults.2.2 sampleAvailabilityRequest
    emptyListsAvailabilityResponse rfl rfl rfl rfl rfl rfl

theorem roomRatesCheck_append {a b : List String} {pre : List RoomRate}
    (h : ∀ x ∈ pre, x.code ≠ "" ∧ (∀ li ∈ x.line_items, Price.getAmount li.price ≠ 0) ∧
      valuePresent x.room_type_code a = true ∧ valuePresent x.rate_plan_code b = true) :
    ∀ (i : Nat) (l : List RoomRate),
      roomRatesCheck a b i (pre ++ l) = roomRatesCheck a b (i + pre.length) l := by
  induction pre with
  | nil => intro i l; simp
  | cons x rest ih =>
    intro i l
    obtain ⟨hx1, hx2, hx3, hx4⟩ := h x (by simp)
    simp only [List.cons_append, roomRatesCheck, roomRateTests_ok hx1 hx2, hx3, hx4,
      Bool.not_true, Bool.false_eq_true, if_false, List.append_eq]
    rw [ih (fun y hy => h y (by simp [hy])) (i + 1) l]
    congr 1
    simp only [List.length_cons]
    omega

/-- C5 counterexample: the Submit validator has no format-conformance phase:
a submit pair whose dates are real dates in the wrong format (`20010401`,
which the date pattern rejects) validates as Valid. -/
theorem claim5_counterexample :
    patternMatch .date "20010401" = false ∧
    Reservation.getStartDate wrongDateSubmitResponse.reservation = "20010401" ∧
    ValidateBookingSubmitResponse wrongDateSubmitRequest wrongDateSubmitResponse =
      .ok () := ⟨rfl, rfl, rfl⟩

/-- C5 amended: for Availability responses the format phase runs after the
required phase and before the echo phase, and a start date violating the date
pattern is reported as exactly that field; the Submit validator has no format
phase at all — its outcomes are only Valid, a missing-required report, or an
echo report. -/
theorem claim5_amended_format_phase :
    (∀ (req : BookingAvailabilityRequest) (resp : BookingAvailabilityResponse),
      checkRequired (availabilityRequiredTests resp) = .ok () →
      patternMatch .date resp.start_date = false →
      patternMatch .date resp.end_date = true →
      patternMatch .iso3166
        (Address.getCountry (HotelDetails.getAddress resp.hotel_details)) = true →
      ValidateBookingAvailabilityResponse req resp =
        .error "error validating format for field(s): start_date") ∧
    (∀ (req : BookingSubmitRequest) (resp : BookingSubmitResponse),
      ValidateBookingSubmitResponse req resp = .ok () ∨
      (∃ t, ValidateBookingSubmitResponse req resp =
        .error ("required field(s) missing: " ++ t)) ∨
      (∃ t, ValidateBookingSubmitResponse req resp =
        .error ("echo field(s) did not match request: " ++ t))) := by
  constructor
  · intro req resp h1 hd1 hd2 hc
    unfold ValidateBookingAvailabilityResponse
    rw [h1]
    have hform : validateFormat (availabilityFormatTests resp) =
        .error "error validating format for field(s): start_date" := by
      simp [validateFormat, availabilityFormatTests, hd1, hd2, hc]
      rfl
    rw [hform]
  · intro req resp
    rcases checkRequired_shape (submitRequiredTests resp) with hok | ⟨t, he⟩
    · have key : ValidateBookingSubmitResponse req resp =
          compareFields (submitEchoTests req resp) := by
        unfold ValidateBookingSubmitResponse
        rw [hok]
      rcases compareFields_shape (submitEchoTests req resp) with h2 | ⟨t, h2⟩
      · exact Or.inl (by rw [key, h2])
      · exact Or.inr (Or.inr ⟨t, by rw [key, h2]⟩)
    · refine Or.inr (Or.inl ⟨t, ?_⟩)
      unfold ValidateBookingSubmitResponse
      rw [he]

/-- Witness for C5's availability conjunct at the repository's own format
test case: start date `20010401`. -/
theorem claim5_witness :
    ValidateBookingAvailabilityResponse wrongStartDateAvailabilityRequest
      wrongStartDateAvailabilityResponse =
      .error "error validating format for field(s): start_date" :=
  claim5_amended_format_phase.1 wrongStartDateAvailabilityRequest
    wrongStartDateAvailabilityResponse rfl rfl rfl rfl

/-- C6: the referential-integrity check fails fast: with the scalar phases
and both preceding loops passing, every room rate before position p passing,
and the rate at position p passing its required checks but citing an
undeclared `room_type_code`, validation returns the standalone referential
message naming that code — whatever the rates after position p look like. -/
theorem claim6_referential_fail_fast
    (req : BookingAvailabilityRequest) (resp : BookingAvailabilityResponse)
    (pre : List RoomRate) (r : RoomRate) (rest : List RoomRate)
    (hsplit : resp.room_rates = pre ++ r :: rest)
    (h1 : checkRequired (availabilityRequiredTests resp) = .ok ())
    (h2 : validateFormat (availabilityFormatTests resp) = .ok ())
    (h3 : compareFields (availabilityEchoTests req resp) = .ok ())
    (h4 : roomTypesCheck 0 resp.room_types = .ok ())
    (h5 : ratePlansCheck 0 resp.rate_plans = .ok ())
    (hpre : ∀ x ∈ pre, x.code ≠ "" ∧
      (∀ li ∈ x.line_items, Price.getAmount li.price ≠ 0) ∧
      valuePresent x.room_type_code (resp.room_types.map RoomType.code) = true ∧
      valuePresent x.rate_plan_code (resp.rate_plans.map RatePlan.code) = true)
    (hr1 : r.code ≠ "")
    (hr2 : ∀ li ∈ r.line_items, Price.getAmount li.price ≠ 0)
    (href : valuePresent r.room_type_code (resp.room_types.map RoomType.code) = false) :
    ValidateBookingAvailabilityResponse req resp =
      .error ("room_rates > room_type_code " ++ r.room_type_code ++
        " not present in room_types > code") := by
  rw [validateAvailability_phases h1 h2 h3, h4, h5, hsplit,
    roomRatesCheck_append hpre 0 (r :: rest)]
  simp only [Nat.zero_add, roomRatesCheck, roomRateTests_ok hr1 hr2, href,
    Bool.not_false, if_true]

/-- Witness for C6: second of three rates cites an undeclared room type code
while the third rate is itself broken; the referential message for the second
rate is returned regardless. -/
theorem claim6_witness :
    ValidateBookingAvailabilityResponse sampleAvailabilityRequest
      badRefRoomRatesResponse =
      .error "room_rates > room_type_code ZZZ not present in room_types > code" := by
  rw [claim6_referential_fail_fast sampleAvailabilityRequest badRefRoomRatesResponse
    [sampleRoomRate] { sampleRoomRate with room_type_code := "ZZZ" }
    [{ emptyRoomRate with line_items := [emptyLineItem] }]
    rfl rfl rfl rfl rfl rfl (by decide) (by decide) (by decide) rfl]
  rfl

theorem dateMatchList_length : ∀ {cs : List Char}, dateMatchList cs = true →
    cs.length = 10
  | [_, _, _, _, _, _, _, _, _, _], _ => rfl
  | [], h => Bool.noConfusion h
  | [_], h => Bool.noConfusion h
  | [_, _], h => Bool.noConfusion h
  | [_, _, _], h => Bool.noConfusion h
  | [_, _, _, _], h => Bool.noConfusion h
  | [_, _, _, _, _], h => Bool.noConfusion h
  | [_, _, _, _, _, _], h => Bool.noConfusion h
  | [_, _, _, _, _, _, _], h => Bool.noConfusion h
  | [_, _, _, _, _, _, _, _], h => Bool.noConfusion h
  | [_, _, _, _, _, _, _, _, _], h => Bool.noConfusion h
  | _ :: _ :: _ :: _ :: _ :: _ :: _ :: _ :: _ :: _ :: _ :: _, h => Bool.noConfusion h

theorem isoHasMiddle_cons (c : Char) {l : List Char} (h : isoHasMiddle l = true) :
    isoHasMiddle (c :: l) = true := by
  cases l with
  | nil => simp [isoHasMiddle] at h
  | cons d rest => simp [isoHasMiddle, h]

theorem isoHasMiddle_append (pre : List Char) {c1 c2 : Char} (suf : List Char)
    (h : isoMiddlePair c1 c2 = true) :
    isoHasMiddle (pre ++ c1 :: c2 :: suf) = true := by
  induction pre with
  | nil => simp [isoHasMiddle, h]
  | cons c rest ih =>
    simp only [List.cons_append]
    exact isoHasMiddle_cons c ih

/-- C4 counterexample: `XXBEXX` is not a two-letter country code, but it
contains the middle-alternative pair `BE` as a proper substring, and the
format check accepts it. -/
theorem claim4_counterexample :
    patternMatch .iso3166 "XXBEXX" = true ∧
    validateFormat [{ field := "hotel_details > address > country"
                      value := "XXBEXX"
                      pattern := .iso3166 }] = .ok () := ⟨rfl, rfl⟩

/-- C4 amended: matching is an unanchored search, so full-string matching
holds only where the pattern itself carries anchors. The date pattern anchors
both ends: no proper superstring of a matching date matches. The country
pattern anchors only its first alternative's start and its last
alternative's end, so every value containing a middle-alternative pair
anywhere — in particular as a proper substring — passes. -/
theorem claim4_amended_anchoring :
    (∀ (pre suf cs : List Char), dateMatchList cs = true → pre ≠ [] ∨ suf ≠ [] →
      dateMatchList (pre ++ cs ++ suf) = false) ∧
    (∀ (pre suf : List Char) (c1 c2 : Char), isoMiddlePair c1 c2 = true →
      isoMatchList (pre ++ c1 :: c2 :: suf) = true) := by
  constructor
  · intro pre suf cs hm hne
    cases hb : dateMatchList (pre ++ cs ++ suf) with
    | false => rfl
    | true =>
      exfalso
      have l1 := dateMatchList_length hm
      have l2 := dateMatchList_length hb
      simp only [List.length_append, l1] at l2
      rcases hne with hne | hne
      · exact hne (List.length_eq_zero.mp (by omega))
      · exact hne (List.length_eq_zero.mp (by omega))
  · intro pre suf c1 c2 h
    simp [isoMatchList, isoHasMiddle_append pre suf h]

/-- Witness for C4's amended claim: the date `2024-01-01` matches, its proper
superstring `x2024-01-01` does not, and `XX` ++ `BE` ++ `XX` passes the
country search. -/
theorem claim4_witness :
    dateMatchList "2024-01-01".data = true ∧
    dateMatchList ("x".data ++ "2024-01-01".data ++ []) = false ∧
    isoMatchList ("XX".data ++ 'B' :: 'E' :: "XX".data) = true :=
  ⟨by decide,
   claim4_amended_anchoring.1 "x".data [] "2024-01-01".data (by decide)
     (Or.inl (by decide)),
   claim4_amended_anchoring.2 "XX".data "XX".data 'B' 'E' (by decide)⟩

theorem lineItemTests_withPrice (i : Nat) (c : String) :
    ∀ (m j : Nat) (items : List LineItem),
      lineItemTests i m (modifyAt (withPrice none) j items) =
      lineItemTests i m (modifyAt (withPrice (some { amount := 0, currency := c })) j items) := by
  intro m j items
  induction items generalizing m j with
  | nil => cases j <;> rfl
  | cons l rest ih =>
    cases j with
    | zero => simp [modifyAt, lineItemTests, withPrice, Price.getAmount]
    | succ n =>
      simp only [modifyAt, lineItemTests]
      rw [ih (m + 1) n]

theorem roomRatesCheck_setPrice (a b : List String) (c : String) :
    ∀ (rates : List RoomRate) (k i j : Nat),
      roomRatesCheck a b k (modifyAt (setRatePrice j none) i rates) =
      roomRatesCheck a b k
        (modifyAt (setRatePrice j (some { amount := 0, currency := c })) i rates) := by
  intro rates
  induction rates with
  | nil => intro k i j; cases i <;> rfl
  | cons r rest ih =>
    intro k i j
    cases i with
    | zero =>
      have ht : roomRateTests k (setRatePrice j none r) =
          roomRateTests k (setRatePrice j (some { amount := 0, currency := c }) r) := by
        simp only [roomRateTests, setRatePrice]
        rw [lineItemTests_withPrice k c 0 j r.line_items]
      simp only [modifyAt, roomRatesCheck]
      rw [ht]
      rfl
    | succ n =>
      simp only [modifyAt, roomRatesCheck, ih]

theorem validate_setPrice_eq (req : BookingAvailabilityRequest)
    (resp : BookingAvailabilityResponse) (i j : Nat) (c : String) :
    ValidateBookingAvailabilityResponse req (setLineItemPrice resp i j none) =
    ValidateBookingAvailabilityResponse req
      (setLineItemPrice resp i j (some { amount := 0, currency := c })) := by
  have e1 : ∀ rr, availabilityRequiredTests { resp with room_rates := rr } =
      availabilityRequiredTests resp := fun _ => rfl
  have e2 : ∀ rr, availabilityFormatTests { resp with room_rates := rr } =
      availabilityFormatTests resp := fun _ => rfl
  have e3 : ∀ rr, availabilityEchoTests req { resp with room_rates := rr } =
      availabilityEchoTests req resp := fun _ => rfl
  have p1 : ∀ rr, ({ resp with room_rates := rr } :
      BookingAvailabilityResponse).room_types = resp.room_types := fun _ => rfl
  have p2 : ∀ rr, ({ resp with room_rates := rr } :
      BookingAvailabilityResponse).rate_plans = resp.rate_plans := fun _ => rfl
  have p3 : ∀ rr, ({ resp with room_rates := rr } :
      BookingAvailabilityResponse).room_rates = rr := fun _ => rfl
  unfold ValidateBookingAvailabilityResponse setLineItemPrice
  simp only [e1, e2, e3, p1, p2, p3]
  rw [roomRatesCheck_setPrice (resp.room_types.map RoomType.code)
    (resp.rate_plans.map RatePlan.code) c resp.room_rates 0 i j]

theorem deviceType_roundtrip (n : Int) :
    deviceTypeOfJson (some (deviceTypeToJson n)) = n := by
  unfold deviceTypeToJson deviceTypeName
  split_ifs with h0 h1 h2 h3
  · rw [h0]; rfl
  · rw [h1]; rfl
  · rw [h2]; rfl
  · rw [h3]; rfl
  · rfl

theorem asIntList_roundtrip (l : List Int) :
    asIntList (some (.arr (l.map Json.num))) = l := by
  induction l with
  | nil => rfl
  | cons x xs ih => simpa [asIntList] using ih

theorem asTracking_roundtrip (t : Option Tracking) :
    asTracking (some (optJson Tracking.toJson t)) = t := by
  cases t with
  | none => rfl
  | some x => rfl

theorem asOccupancy_roundtrip (o : Option Occupancy) :
    asOccupancy (some (optJson Occupancy.toJson o)) = o := by
  cases o with
  | none => rfl
  | some x =>
    show some { adults := x.adults
                children := asIntList (some (.arr (x.children.map Json.num))) } = some x
    rw [asIntList_roundtrip]

theorem availabilityRequest_parse_roundtrip (r : BookingAvailabilityRequest) :
    availabilityRequestOfJson (availabilityRequestToJson r) = .ok r := by
  show Except.ok
      { api_version := r.api_version
        transaction_id := r.transaction_id
        tracking := asTracking (some (optJson Tracking.toJson r.tracking))
        hotel_id := r.hotel_id
        start_date := r.start_date
        end_date := r.end_date
        party := asOccupancy (some (optJson Occupancy.toJson r.party))
        language := r.language
        currency := r.currency
        user_country := r.user_country
        device_type := deviceTypeOfJson (some (deviceTypeToJson r.device_type)) } =
    .ok r
  rw [asTracking_roundtrip, asOccupancy_roundtrip, deviceType_roundtrip]

/-- C8: serializing a request to the JSON wire format under original field
names and loading the result back through the request loader as a `.json`
file yields a structurally equal request object. -/
theorem claim8_load_roundtrip (r : BookingAvailabilityRequest) (fp : String)
    (h : pathExtGo fp = ".json") :
    LoadAvailabilityRequest fp (availabilityRequestToJson r) = .ok r := by
  unfold LoadAvailabilityRequest
  rw [if_pos h, availabilityRequest_parse_roundtrip r]

/-- Witness for C8 at a concrete file name and request. -/
theorem claim8_witness :
    pathExtGo "BookingAvailabilityRequest.json" = ".json" ∧
    LoadAvailabilityRequest "BookingAvailabilityRequest.json"
      (availabilityRequestToJson sampleAvailabilityRequest) =
      .ok sampleAvailabilityRequest :=
  ⟨by decide,
   claim8_load_roundtrip sampleAvailabilityRequest
     "BookingAvailabilityRequest.json" (by decide)⟩

theorem ratePlansCheck_append {pre : List RatePlan}
    (h : ∀ x ∈ pre, x.code ≠ "" ∧ DisplayString.textRepr x.name ≠ "" ∧
      x.cancellation_policy ≠ none) :
    ∀ (i : Nat) (l : List RatePlan),
      ratePlansCheck i (pre ++ l) = ratePlansCheck (i + pre.length) l := by
  induction pre with
  | nil => intro i l; simp
  | cons x rest ih =>
    intro i l
    obtain ⟨hx1, hx2, hx3⟩ := h x (by simp)
    simp only [List.cons_append, ratePlansCheck, ratePlanTests_ok hx1 hx2 hx3,
      List.append_eq]
    rw [ih (fun y hy => h y (by simp [hy])) (i + 1) l]
    congr 1
    simp only [List.length_cons]
    omega

theorem modifyAt_append_cons (f : A → A) (pre : List A) (x : A) (xs : List A) :
    modifyAt f pre.length (pre ++ x :: xs) = pre ++ f x :: xs := by
  induction pre with
  | nil => rfl
  | cons a rest ih =>
    simp only [List.cons_append, List.length_cons, modifyAt, List.append_eq, ih]

theorem lineItemTests_append (i : Nat) (xs ys : List LineItem) :
    ∀ m, lineItemTests i m (xs ++ ys) =
      lineItemTests i m xs ++ lineItemTests i (m + xs.length) ys := by
  induction xs with
  | nil => intro m; simp [lineItemTests]
  | cons a rest ih =>
    intro m
    simp only [List.cons_append, lineItemTests, List.append_eq, ih (m + 1),
      List.length_cons]
    have harith : m + 1 + rest.length = m + (rest.length + 1) := by omega
    rw [harith]

theorem lineItemTests_filter_nil (i : Nat) (items : List LineItem)
    (h : ∀ li ∈ items, Price.getAmount li.price ≠ 0) (m : Nat) :
    (lineItemTests i m items).filter (fun rr => rr.got.isZero) = [] := by
  apply List.filter_eq_nil_iff.mpr
  intro t ht
  obtain ⟨x, hx, hg⟩ := lineItemTests_mem i items m t ht
  rw [hg]
  simpa [FieldValue.isZero] using h x hx

/-- C3 amended: in each of the three phase-4 loops (room types, rate plans,
room rates), all of one element's required-field failures are aggregated and
labeled with the element's index (for a room rate this spans every nested
line item's price and the rate's code), but across elements each loop fails
fast: with the scalar phases and every earlier loop and element passing, a
failing element at position p yields exactly its own indexed failure list,
whatever comes after it. -/
theorem claim3_amended_first_failing_element :
    (∀ (req : BookingAvailabilityRequest) (resp : BookingAvailabilityResponse)
        (pre : List RoomType) (r : RoomType) (rest : List RoomType),
      resp.room_types = pre ++ r :: rest →
      checkRequired (availabilityRequiredTests resp) = .ok () →
      validateFormat (availabilityFormatTests resp) = .ok () →
      compareFields (availabilityEchoTests req resp) = .ok () →
      (∀ x ∈ pre, x.code ≠ "" ∧ DisplayString.textRepr x.name ≠ "") →
      ((roomTypeTests pre.length r).filter (fun rr => rr.got.isZero)).map
        (fun rr => rr.field) ≠ [] →
      ValidateBookingAvailabilityResponse req resp =
        .error ("required field(s) missing: " ++ String.intercalate ", "
          (((roomTypeTests pre.length r).filter (fun rr => rr.got.isZero)).map
            (fun rr => rr.field)))) ∧
    (∀ (req : BookingAvailabilityRequest) (resp : BookingAvailabilityResponse)
        (pre : List RatePlan) (r : RatePlan) (rest : List RatePlan),
      resp.rate_plans = pre ++ r :: rest →
      checkRequired (availabilityRequiredTests resp) = .ok () →
      validateFormat (availabilityFormatTests resp) = .ok () →
      compareFields (availabilityEchoTests req resp) = .ok () →
      roomTypesCheck 0 resp.room_types = .ok () →
      (∀ x ∈ pre, x.code ≠ "" ∧ DisplayString.textRepr x.name ≠ "" ∧
        x.cancellation_policy ≠ none) →
      ((ratePlanTests pre.length r).filter (fun rr => rr.got.isZero)).map
        (fun rr => rr.field) ≠ [] →
      ValidateBookingAvailabilityResponse req resp =
        .error ("required field(s) missing: " ++ String.intercalate ", "
          (((ratePlanTests pre.length r).filter (fun rr => rr.got.isZero)).map
            (fun rr => rr.field)))) ∧
    (∀ (req : BookingAvailabilityRequest) (resp : BookingAvailabilityResponse)
        (pre : List RoomRate) (r : RoomRate) (rest : List RoomRate),
      resp.room_rates = pre ++ r :: rest →
      checkRequired (availabilityRequiredTests resp) = .ok () →
      validateFormat (availabilityFormatTests resp) = .ok () →
      compareFields (availabilityEchoTests req resp) = .ok () →
      roomTypesCheck 0 resp.room_types = .ok () →
      ratePlansCheck 0 resp.rate_plans = .ok () →
      (∀ x ∈ pre, x.code ≠ "" ∧
        (∀ li ∈ x.line_items, Price.getAmount li.price ≠ 0) ∧
        valuePresent x.room_type_code (resp.room_types.map RoomType.code) = true ∧
        valuePresent x.rate_plan_code (resp.rate_plans.map RatePlan.code) = true) →
      ((roomRateTests pre.length r).filter (fun rr => rr.got.isZero)).map
        (fun rr => rr.field) ≠ [] →
      ValidateBookingAvailabilityResponse req resp =
        .error ("required field(s) missing: " ++ String.intercalate ", "
          (((roomRateTests pre.length r).filter (fun rr => rr.got.isZero)).map
            (fun rr => rr.field)))) := by
  refine ⟨?_, ?_, ?_⟩
  · intro req resp pre r rest hsplit h1 h2 h3 hpre hfail
    rw [validateAvailability_phases h1 h2 h3, hsplit,
      roomTypesCheck_append hpre 0 (r :: rest)]
    simp only [Nat.zero_add, roomTypesCheck]
    rw [checkRequired_eq_error hfail]
  · intro req resp pre r rest hsplit h1 h2 h3 h4 hpre hfail
    rw [validateAvailability_phases h1 h2 h3, h4, hsplit,
      ratePlansCheck_append hpre 0 (r :: rest)]
    simp only [Nat.zero_add, ratePlansCheck]
    rw [checkRequired_eq_error hfail]
  · intro req resp pre r rest hsplit h1 h2 h3 h4 h5 hpre hfail
    rw [validateAvailability_phases h1 h2 h3, h4, h5, hsplit,
      roomRatesCheck_append hpre 0 (r :: rest)]
    simp only [Nat.zero_add, roomRatesCheck]
    rw [checkRequired_eq_error hfail]

/-- Witness for C3's amended claim in each loop: a failing element at index 1
of `room_types`, of `rate_plans`, and of `room_rates`; for the room rate, all
of its failures (two nested line-item prices and its code) are aggregated in
one indexed message. -/
theorem claim3_witness :
    (ValidateBookingAvailabilityResponse sampleAvailabilityRequest
      secondBadRoomTypeResponse =
      .error "required field(s) missing: room_types[1] > code") ∧
    (ValidateBookingAvailabilityResponse sampleAvailabilityRequest
      secondBadRatePlanResponse =
      .error "required field(s) missing: rate_plans[1] > cancellation_policy") ∧
    (ValidateBookingAvailabilityResponse sampleAvailabilityRequest
      secondBadRoomRateResponse =
      .error "required field(s) missing: room_rates[1] > line_items[1] > price, room_rates[1] > line_items[2] > price, room_rates[1] > code") := by
  refine ⟨?_, ?_, ?_⟩
  · rw [claim3_amended_first_failing_element.1 sampleAvailabilityRequest
      secondBadRoomTypeResponse [sampleRoomType]
      { emptyRoomType with name := some { text := "B", language := "" } } []
      rfl rfl rfl rfl (by decide) (by decide)]
    rfl
  · rw [claim3_amended_first_failing_element.2.1 sampleAvailabilityRequest
      secondBadRatePlanResponse [sampleRatePlan]
      { emptyRatePlan with
        code := "RP2"
        name := some { text := "X", language := "" } } []
      rfl rfl rfl rfl rfl (by decide) (by decide)]
    rfl
  · rw [claim3_amended_first_failing_element.2.2 sampleAvailabilityRequest
      secondBadRoomRateResponse [sampleRoomRate]
      { emptyRoomRate with
        room_type_code := "RT1"
        rate_plan_code := "RP1"
        line_items := [goodLineItem, emptyLineItem, zeroLineItem] } []
      rfl rfl rfl rfl rfl rfl (by decide) (by decide)]
    rfl

/-- C9: a line-item price with amount 0 and a wholly absent line-item price
are indistinguishable in the reported result: for any availability pair the
two responses yield the identical outcome, and in an otherwise conformant
response that shared outcome is the missing-required failure naming exactly
the path of that line item's price, for both variants of the price. -/
theorem claim9_zero_price_equals_missing :
    (∀ (req : BookingAvailabilityRequest) (resp : BookingAvailabilityResponse)
        (i j : Nat) (c : String),
      ValidateBookingAvailabilityResponse req (setLineItemPrice resp i j none) =
      ValidateBookingAvailabilityResponse req
        (setLineItemPrice resp i j (some { amount := 0, currency := c }))) ∧
    (∀ (req : BookingAvailabilityRequest) (resp : BookingAvailabilityResponse)
        (pre : List RoomRate) (r : RoomRate) (rest : List RoomRate)
        (lpre : List LineItem) (l : LineItem) (lrest : List LineItem)
        (c : String) (p : Option Price),
      resp.room_rates = pre ++ r :: rest →
      r.line_items = lpre ++ l :: lrest →
      (p = none ∨ p = some { amount := 0, currency := c }) →
      checkRequired (availabilityRequiredTests resp) = .ok () →
      validateFormat (availabilityFormatTests resp) = .ok () →
      compareFields (availabilityEchoTests req resp) = .ok () →
      roomTypesCheck 0 resp.room_types = .ok () →
      ratePlansCheck 0 resp.rate_plans = .ok () →
      (∀ x ∈ pre, x.code ≠ "" ∧
        (∀ li ∈ x.line_items, Price.getAmount li.price ≠ 0) ∧
        valuePresent x.room_type_code (resp.room_types.map RoomType.code) = true ∧
        valuePresent x.rate_plan_code (resp.rate_plans.map RatePlan.code) = true) →
      r.code ≠ "" →
      (∀ li ∈ lpre, Price.getAmount li.price ≠ 0) →
      (∀ li ∈ lrest, Price.getAmount li.price ≠ 0) →
      ValidateBookingAvailabilityResponse req
        (setLineItemPrice resp pre.length lpre.length p) =
        .error ("required field(s) missing: " ++
          ("room_rates[" ++ toString pre.length ++ "] > line_items[" ++
            toString lpre.length ++ "] > price"))) := by
  constructor
  · intro req resp i j c
    exact validate_setPrice_eq req resp i j c
  · intro req resp pre r rest lpre l lrest c p hsplit hlsplit hp h1 h2 h3 h4 h5
      hpre hrcode hlpre hlrest
    have ha : Price.getAmount p = 0 := by rcases hp with rfl | rfl <;> rfl
    have h1x : checkRequired (availabilityRequiredTests
        (setLineItemPrice resp pre.length lpre.length p)) = .ok () := h1
    have h2x : validateFormat (availabilityFormatTests
        (setLineItemPrice resp pre.length lpre.length p)) = .ok () := h2
    have h3x : compareFields (availabilityEchoTests req
        (setLineItemPrice resp pre.length lpre.length p)) = .ok () := h3
    have q1 : (setLineItemPrice resp pre.length lpre.length p).room_types =
        resp.room_types := rfl
    have q2 : (setLineItemPrice resp pre.length lpre.length p).rate_plans =
        resp.rate_plans := rfl
    have q3 : (setLineItemPrice resp pre.length lpre.length p).room_rates =
        modifyAt (setRatePrice lpre.length p) pre.length resp.room_rates := rfl
    have hfilter : ((roomRateTests pre.length
        (setRatePrice lpre.length p r)).filter (fun rr => rr.got.isZero)).map
          (fun rr => rr.field) =
        ["room_rates[" ++ toString pre.length ++ "] > line_items[" ++
          toString lpre.length ++ "] > price"] := by
      have e : (setRatePrice lpre.length p r).line_items =
          lpre ++ withPrice p l :: lrest := by
        show modifyAt (withPrice p) lpre.length r.line_items = _
        rw [hlsplit, modifyAt_append_cons]
      simp only [roomRateTests, e, lineItemTests_append, lineItemTests,
        Nat.zero_add]
      have ecode : (setRatePrice lpre.length p r).code = r.code := rfl
      simp only [List.filter_append, List.filter_cons]
      rw [lineItemTests_filter_nil pre.length lpre hlpre 0,
        lineItemTests_filter_nil pre.length lrest hlrest (lpre.length + 1)]
      simp [FieldValue.isZero, withPrice, ha, ecode, hrcode]
    rw [validateAvailability_phases h1x h2x h3x, q1, q2, q3, h4, h5, hsplit,
      modifyAt_append_cons,
      roomRatesCheck_append hpre 0 (setRatePrice lpre.length p r :: rest)]
    simp only [Nat.zero_add, roomRatesCheck]
    rw [checkRequired_eq_error (by simp [hfilter]), hfilter]
    rfl

/-- Witness for C9: in an otherwise conformant response, replacing the price
of line item 1 of rate 1 by nil and by amount 0 both yield exactly the
missing-required failure naming `room_rates[1] > line_items[1] > price`. -/
theorem claim9_witness :
    (ValidateBookingAvailabilityResponse sampleAvailabilityRequest
      (setLineItemPrice twoLineItemResponse 1 1 none) =
      .error "required field(s) missing: room_rates[1] > line_items[1] > price") ∧
    (ValidateBookingAvailabilityResponse sampleAvailabilityRequest
      (setLineItemPrice twoLineItemResponse 1 1
        (some { amount := 0, currency := "USD" })) =
      .error "required field(s) missing: room_rates[1] > line_items[1] > price") := by
  constructor
  · exact claim9_zero_price_equals_missing.2 sampleAvailabilityRequest
      twoLineItemResponse [sampleRoomRate] twoLineItemRate []
      [goodLineItem] zeroLineItem [] "USD" none
      rfl rfl (Or.inl rfl) rfl rfl rfl rfl rfl (by decide) (by decide)
      (by decide) (by decide)
  · exact claim9_zero_price_equals_missing.2 sampleAvailabilityRequest
      twoLineItemResponse [sampleRoomRate] twoLineItemRate []
      [goodLineItem] zeroLineItem [] "USD"
      (some { amount := 0, currency := "USD" })
      rfl rfl (Or.inr rfl) rfl rfl rfl rfl rfl (by decide) (by decide)
      (by decide) (by decide)
